import Mathlib

/-!
Verification of the storage layer of an Omni-Paxos-style replicated-log
engine. The definitions below are a shallow embedding of the Rust sources:

* `src/omnipaxos_core/src/storage.rs` — entry, stop-sign, snapshot and
  storage-contract types;
* `src/omnipaxos_storage/src/memory_storage.rs` — the in-memory backend
  whose mutators return `Result` (embedded as `MemoryStorage`);
* `src/omnipaxos_storage/src/memory.rs`, module `memory_storage` — the
  in-memory backend whose mutators return plain values (embedded as
  `MemoryStorageP`);
* `src/omnipaxos_storage/src/memory.rs`, module `persistent_storage` —
  the disk backend over a commit log and a RocksDB key-value store
  (embedded as `PersistentState`; the key-value store is modelled as an
  association list with most-recent-write-wins lookup);
* `src/src/omnipaxos.rs` — node configuration and its validation.

Machine integers (`u64`, `u32`, `usize`) are modelled as `Nat`: the
storage code only compares them and uses them as indices, it performs no
wrapping arithmetic. Rust `Vec<T>` is `List T`; fallible reads that the
source performs with `unwrap()` on a deserialization are embedded as
`Option`, with `none` standing for the panic.
-/

namespace OmniPaxos

/-- Modelled from the spec: the `Ballot` type lives in the
ballot-leader-election module, which is not among the repository files;
spec section 3 describes it as a totally ordered tuple
`(n, priority, pid)` whose default is the minimum of the order. The
storage claims use ballots only as stored values, so the order itself is
not needed here. -/
structure Ballot where
  n : Nat
  priority : Nat
  pid : Nat
  deriving DecidableEq

/-- Rust `Ballot::default()`: the minimum ballot, all fields zero. -/
def Ballot.default : Ballot := ⟨0, 0, 0⟩

/-- Rust `StopSign` (storage.rs lines 25-32): `config_id: u32`,
`nodes: Vec<u64>`, `metadata: Option<Vec<u8>>`. -/
structure StopSign where
  config_id : Nat
  nodes : List Nat
  metadata : Option (List Nat)
  deriving DecidableEq

/-- Rust `impl PartialEq for StopSign` (storage.rs lines 45-49): compares
`config_id` and `nodes` only; `metadata` is not inspected. -/
def StopSign.eq (a b : StopSign) : Bool :=
  a.config_id == b.config_id && a.nodes == b.nodes

/-- Rust `StopSignEntry` (storage.rs lines 11-14): a stop-sign plus its
`decided` flag. -/
structure StopSignEntry where
  stopsign : StopSign
  decided : Bool
  deriving DecidableEq

/-- Rust `StorageErr` (storage.rs lines 209-212). -/
inductive StorageErr where
  | LogError
  | StateError
  deriving DecidableEq

/-- Rust `impl<T: Entry> Snapshot<T> for ()`, `create` (storage.rs lines
216-218): the body is `unimplemented!()`, a guaranteed panic, embedded
as `none` on every input. -/
def UnitSnapshot.create (T : Type) : List T → Option Unit := fun _ => none

/-- Rust `impl<T: Entry> Snapshot<T> for ()`, `merge` (storage.rs lines
220-222): the body is `unimplemented!()`, embedded as `none`. -/
def UnitSnapshot.merge : Unit → Unit → Option Unit := fun _ _ => none

/-- Rust `impl<T: Entry> Snapshot<T> for ()`, `use_snapshots` (storage.rs
lines 224-226): returns `false`. -/
def UnitSnapshot.use_snapshots : Bool := false

/-- Rust slice indexing `log.get(from..to)`: `Some` of the subslice
exactly when `from <= to` and `to <= log.len()`, `None` otherwise. -/
def sliceRange {α : Type} (l : List α) (f t : Nat) : Option (List α) :=
  if f ≤ t ∧ t ≤ l.length then some ((l.take t).drop f) else none

/-- Rust slice indexing `log.get(from..)`: `Some` of the suffix exactly
when `from <= log.len()`, `None` otherwise. -/
def sliceFrom {α : Type} (l : List α) (f : Nat) : Option (List α) :=
  if f ≤ l.length then some (l.drop f) else none

/-- The in-memory backend of `src/omnipaxos_storage/src/memory_storage.rs`
(lines 7-26): log, promised round, accepted round, decided index,
compacted index, optional snapshot and optional stop-sign. -/
structure MemoryStorage (T S : Type) where
  log : List T
  n_prom : Ballot
  acc_round : Ballot
  ld : Nat
  trimmed_idx : Nat
  snapshot : Option S
  stopsign : Option StopSignEntry
  deriving DecidableEq

namespace MemoryStorage

variable {T S : Type}

/-- Rust `get_log_len` (memory_storage.rs lines 79-81). -/
def get_log_len (s : MemoryStorage T S) : Nat := s.log.length

/-- Rust `append_entry` (memory_storage.rs lines 33-36): push the entry,
return `Ok` of the new length. -/
def append_entry (s : MemoryStorage T S) (e : T) :
    MemoryStorage T S × Except StorageErr Nat :=
  ({ s with log := s.log ++ [e] }, Except.ok (s.log ++ [e]).length)

/-- Rust `append_entries` (memory_storage.rs lines 38-42). -/
def append_entries (s : MemoryStorage T S) (es : List T) :
    MemoryStorage T S × Except StorageErr Nat :=
  ({ s with log := s.log ++ es }, Except.ok (s.log ++ es).length)

/-- Rust `append_on_prefix` (memory_storage.rs lines 44-47): `Vec::truncate`
to `from_idx` (a no-op past the length), then `append_entries`. -/
def append_on_prefix (s : MemoryStorage T S) (from_idx : Nat) (es : List T) :
    MemoryStorage T S × Except StorageErr Nat :=
  append_entries { s with log := s.log.take from_idx } es

/-- Rust `set_promise` (memory_storage.rs lines 49-52). -/
def set_promise (s : MemoryStorage T S) (b : Ballot) :
    MemoryStorage T S × Except StorageErr Unit :=
  ({ s with n_prom := b }, Except.ok ())

/-- Rust `set_decided_idx` (memory_storage.rs lines 54-57). -/
def set_decided_idx (s : MemoryStorage T S) (ld : Nat) :
    MemoryStorage T S × Except StorageErr Unit :=
  ({ s with ld := ld }, Except.ok ())

/-- Rust `get_decided_idx` (memory_storage.rs lines 59-61). -/
def get_decided_idx (s : MemoryStorage T S) : Nat := s.ld

/-- Rust `set_accepted_round` (memory_storage.rs lines 63-66). -/
def set_accepted_round (s : MemoryStorage T S) (na : Ballot) :
    MemoryStorage T S × Except StorageErr Unit :=
  ({ s with acc_round := na }, Except.ok ())

/-- Rust `get_accepted_round` (memory_storage.rs lines 68-70). -/
def get_accepted_round (s : MemoryStorage T S) : Ballot := s.acc_round

/-- Rust `get_entries` (memory_storage.rs lines 72-77):
`log.get(from..to).unwrap_or(&[]).to_vec()`. -/
def get_entries (s : MemoryStorage T S) (f t : Nat) : List T :=
  (sliceRange s.log f t).getD []

/-- Rust `get_suffix` (memory_storage.rs lines 83-88): `log.get(from..)`,
empty vector when out of range. -/
def get_suffix (s : MemoryStorage T S) (f : Nat) : List T :=
  match sliceFrom s.log f with
  | some l => l
  | none => []

/-- Rust `get_promise` (memory_storage.rs lines 90-92). -/
def get_promise (s : MemoryStorage T S) : Ballot := s.n_prom

/-- Rust `set_stopsign` (memory_storage.rs lines 94-97). -/
def set_stopsign (s : MemoryStorage T S) (ss : StopSignEntry) :
    MemoryStorage T S × Except StorageErr Unit :=
  ({ s with stopsign := some ss }, Except.ok ())

/-- Rust `get_stopsign` (memory_storage.rs lines 99-101). -/
def get_stopsign (s : MemoryStorage T S) : Option StopSignEntry := s.stopsign

/-- Rust `trim` (memory_storage.rs lines 103-106):
`self.log.drain(0..trimmed_idx)`. `Vec::drain` panics when the range end
exceeds the vector length; the panic is embedded as `none`. -/
def trim (s : MemoryStorage T S) (trimmed_idx : Nat) :
    Option (MemoryStorage T S × Except StorageErr Unit) :=
  if trimmed_idx ≤ s.log.length then
    some ({ s with log := s.log.drop trimmed_idx }, Except.ok ())
  else none

/-- Rust `set_compacted_idx` (memory_storage.rs lines 108-111). -/
def set_compacted_idx (s : MemoryStorage T S) (i : Nat) :
    MemoryStorage T S × Except StorageErr Unit :=
  ({ s with trimmed_idx := i }, Except.ok ())

/-- Rust `get_compacted_idx` (memory_storage.rs lines 113-115). -/
def get_compacted_idx (s : MemoryStorage T S) : Nat := s.trimmed_idx

/-- Rust `set_snapshot` (memory_storage.rs lines 117-120). -/
def set_snapshot (s : MemoryStorage T S) (sn : S) :
    MemoryStorage T S × Except StorageErr Unit :=
  ({ s with snapshot := some sn }, Except.ok ())

/-- Rust `get_snapshot` (memory_storage.rs lines 122-124). -/
def get_snapshot (s : MemoryStorage T S) : Option S := s.snapshot

/-- Rust `impl Default for MemoryStorage` (memory_storage.rs lines 127-139). -/
def init : MemoryStorage T S :=
  ⟨[], Ballot.default, Ballot.default, 0, 0, none, none⟩

end MemoryStorage

/-- The in-memory backend of `src/omnipaxos_storage/src/memory.rs`, module
`memory_storage` (lines 231-250): the same fields as `MemoryStorage`, but
its operations return plain values instead of `Result`. -/
structure MemoryStorageP (T S : Type) where
  log : List T
  n_prom : Ballot
  acc_round : Ballot
  ld : Nat
  trimmed_idx : Nat
  snapshot : Option S
  stopsign : Option StopSignEntry
  deriving DecidableEq

namespace MemoryStorageP

variable {T S : Type}

/-- Rust `get_log_len` (memory.rs lines 297-299). -/
def get_log_len (s : MemoryStorageP T S) : Nat := s.log.length

/-- Rust `append_entry` (memory.rs lines 257-260). -/
def append_entry (s : MemoryStorageP T S) (e : T) : MemoryStorageP T S × Nat :=
  ({ s with log := s.log ++ [e] }, (s.log ++ [e]).length)

/-- Rust `append_entries` (memory.rs lines 262-266). -/
def append_entries (s : MemoryStorageP T S) (es : List T) :
    MemoryStorageP T S × Nat :=
  ({ s with log := s.log ++ es }, (s.log ++ es).length)

/-- Rust `append_on_prefix` (memory.rs lines 268-271). -/
def append_on_prefix (s : MemoryStorageP T S) (from_idx : Nat) (es : List T) :
    MemoryStorageP T S × Nat :=
  append_entries { s with log := s.log.take from_idx } es

/-- Rust `set_promise` (memory.rs lines 273-275). -/
def set_promise (s : MemoryStorageP T S) (b : Ballot) : MemoryStorageP T S :=
  { s with n_prom := b }

/-- Rust `set_decided_idx` (memory.rs lines 277-279). -/
def set_decided_idx (s : MemoryStorageP T S) (ld : Nat) : MemoryStorageP T S :=
  { s with ld := ld }

/-- Rust `get_decided_idx` (memory.rs lines 281-283). -/
def get_decided_idx (s : MemoryStorageP T S) : Nat := s.ld

/-- Rust `set_accepted_round` (memory.rs lines 285-287). -/
def set_accepted_round (s : MemoryStorageP T S) (na : Ballot) :
    MemoryStorageP T S :=
  { s with acc_round := na }

/-- Rust `get_accepted_round` (memory.rs lines 289-291). -/
def get_accepted_round (s : MemoryStorageP T S) : Ballot := s.acc_round

/-- Rust `get_entries` (memory.rs lines 293-295). -/
def get_entries (s : MemoryStorageP T S) (f t : Nat) : List T :=
  (sliceRange s.log f t).getD []

/-- Rust `get_suffix` (memory.rs lines 301-306). -/
def get_suffix (s : MemoryStorageP T S) (f : Nat) : List T :=
  match sliceFrom s.log f with
  | some l => l
  | none => []

/-- Rust `get_promise` (memory.rs lines 308-310). -/
def get_promise (s : MemoryStorageP T S) : Ballot := s.n_prom

/-- Rust `set_stopsign` (memory.rs lines 312-314). -/
def set_stopsign (s : MemoryStorageP T S) (ss : StopSignEntry) :
    MemoryStorageP T S :=
  { s with stopsign := some ss }

/-- Rust `get_stopsign` (memory.rs lines 316-318). -/
def get_stopsign (s : MemoryStorageP T S) : Option StopSignEntry := s.stopsign

/-- Rust `trim` (memory.rs lines 320-322): `Vec::drain`, whose
out-of-range panic is embedded as `none`. -/
def trim (s : MemoryStorageP T S) (trimmed_idx : Nat) :
    Option (MemoryStorageP T S) :=
  if trimmed_idx ≤ s.log.length then
    some { s with log := s.log.drop trimmed_idx }
  else none

/-- Rust `set_compacted_idx` (memory.rs lines 324-326). -/
def set_compacted_idx (s : MemoryStorageP T S) (i : Nat) : MemoryStorageP T S :=
  { s with trimmed_idx := i }

/-- Rust `get_compacted_idx` (memory.rs lines 328-330). -/
def get_compacted_idx (s : MemoryStorageP T S) : Nat := s.trimmed_idx

/-- Rust `set_snapshot` (memory.rs lines 332-334). -/
def set_snapshot (s : MemoryStorageP T S) (sn : S) : MemoryStorageP T S :=
  { s with snapshot := some sn }

/-- Rust `get_snapshot` (memory.rs lines 336-338). -/
def get_snapshot (s : MemoryStorageP T S) : Option S := s.snapshot

/-- Rust `impl Default for MemoryStorage` (memory.rs lines 341-353). -/
def init : MemoryStorageP T S :=
  ⟨[], Ballot.default, Ballot.default, 0, 0, none, none⟩

end MemoryStorageP

/-- A value stored in the RocksDB key-value store of the disk backend:
either the `zerocopy` byte image of a `Ballot` or that of a `u64`.
Serialization of a fixed-layout struct is injective, so the bytes are
modelled by the value itself; `FromBytes::read_from` at the wrong type
fails (the byte length differs), which the readers below surface as
`none` (the source calls `unwrap()` there, a panic). -/
inductive DBVal where
  | ballotBytes (b : Ballot)
  | u64Bytes (n : Nat)
  deriving DecidableEq

/-- The disk backend `PersistentState` of
`src/omnipaxos_storage/src/memory.rs`, module `persistent_storage`
(lines 21-40): a commit log of entries, its path, a RocksDB store
(modelled as an association list, `put` prepends and `get` takes the
most recent write), the compacted index, and the in-memory snapshot and
stop-sign fields. -/
structure PersistentState (T S : Type) where
  c_log : List T
  c_log_path : String
  db : List (String × DBVal)
  trimmed_idx : Nat
  snapshot : Option S
  stopsign : Option StopSignEntry

namespace PersistentState

variable {T S : Type}

/-- Rust `PersistentState::with` (memory.rs lines 43-71): removes any
old directories and opens a fresh empty commit log and an empty
database. -/
def init (T S : Type) (replica_id : String) : PersistentState T S :=
  ⟨[], "commitlog/" ++ replica_id, [], 0, none, none⟩

/-- Rust `get_promise` (memory.rs lines 131-140): read key `n_prom`;
absent key gives `Ballot::default()`; bytes of the wrong type fail
deserialization (`none`). -/
def get_promise (s : PersistentState T S) : Option Ballot :=
  match s.db.lookup "n_prom" with
  | some (DBVal.ballotBytes b) => some b
  | some (DBVal.u64Bytes _) => none
  | none => some Ballot.default

/-- Rust `set_promise` (memory.rs lines 142-145): write key `n_prom`. -/
def set_promise (s : PersistentState T S) (b : Ballot) : PersistentState T S :=
  { s with db := ("n_prom", DBVal.ballotBytes b) :: s.db }

/-- Rust `get_decided_idx` (memory.rs lines 147-156): read key `ld`;
absent key gives 0. -/
def get_decided_idx (s : PersistentState T S) : Option Nat :=
  match s.db.lookup "ld" with
  | some (DBVal.u64Bytes k) => some k
  | some (DBVal.ballotBytes _) => none
  | none => some 0

/-- Rust `set_decided_idx` (memory.rs lines 158-161): write key `ld`. -/
def set_decided_idx (s : PersistentState T S) (ld : Nat) : PersistentState T S :=
  { s with db := ("ld", DBVal.u64Bytes ld) :: s.db }

/-- Rust `get_accepted_round` (memory.rs lines 163-172): read key
`acc_round`; absent key gives `Ballot::default()`. -/
def get_accepted_round (s : PersistentState T S) : Option Ballot :=
  match s.db.lookup "acc_round" with
  | some (DBVal.ballotBytes b) => some b
  | some (DBVal.u64Bytes _) => none
  | none => some Ballot.default

/-- Rust `set_accepted_round` (memory.rs lines 174-177): the source
writes the accepted round to key `n_prom`, not to `acc_round`:
`self.db.put(b"n_prom", acc_bytes).unwrap()`. -/
def set_accepted_round (s : PersistentState T S) (na : Ballot) :
    PersistentState T S :=
  { s with db := ("n_prom", DBVal.ballotBytes na) :: s.db }

/-- Rust `set_compacted_idx` (memory.rs lines 204-207). -/
def set_compacted_idx (s : PersistentState T S) (i : Nat) :
    PersistentState T S :=
  { s with trimmed_idx := i }

/-- Rust `get_compacted_idx` (memory.rs lines 209-212). -/
def get_compacted_idx (s : PersistentState T S) : Nat := s.trimmed_idx

end PersistentState

/-- Rust `NodeConfig` (omnipaxos.rs lines 181-190). `Duration` is
modelled as a count of milliseconds. -/
structure NodeConfig where
  pid : Nat
  peers : List Nat
  leader_timeout : Nat
  buffer_size : Nat
  initial_leader : Option Ballot
  initial_leader_timeout : Option Nat
  priority : Option Nat
  logger_path : Option String
  deriving DecidableEq

/-- Rust `NodeConfigErr` (omnipaxos.rs lines 252-256). -/
inductive NodeConfigErr where
  | InvalidPid (pid : Nat)
  | InvalidPeers (pid : Nat) (peers : List Nat)
  deriving DecidableEq

/-- Rust `NodeConfig::validate` (omnipaxos.rs lines 240-249): reject a
zero pid, then an empty peer list or one containing the node itself. -/
def NodeConfig.validate (c : NodeConfig) : Except NodeConfigErr Unit :=
  if c.pid = 0 then Except.error (NodeConfigErr.InvalidPid c.pid)
  else if c.peers.isEmpty || c.peers.contains c.pid then
    Except.error (NodeConfigErr.InvalidPeers c.pid c.peers)
  else Except.ok ()

/-- One call of the `Storage` trait (storage.rs lines 142-204), with its
argument. -/
inductive StorageOp (T S : Type) where
  | appendEntry (e : T)
  | appendEntries (es : List T)
  | appendOnPref (i : Nat) (es : List T)
  | setPromise (b : Ballot)
  | setDecidedIdx (n : Nat)
  | getDecidedIdx
  | setAcceptedRound (b : Ballot)
  | getAcceptedRound
  | getEntries (f t : Nat)
  | getLogLen
  | getSuffix (f : Nat)
  | getPromise
  | setStopsign (ss : StopSignEntry)
  | getStopsign
  | trim (i : Nat)
  | setCompactedIdx (i : Nat)
  | getCompactedIdx
  | setSnapshot (sn : S)
  | getSnapshot

/-- The value a `Storage` call returns, one constructor per return
type of the trait. -/
inductive RetVal (T S : Type) where
  | unitRet
  | natRet (n : Nat)
  | ballotRet (b : Ballot)
  | listRet (l : List T)
  | ssRet (o : Option StopSignEntry)
  | snapRet (o : Option S)
  deriving DecidableEq

/-- One step of the `Result`-returning in-memory backend: the new state
and the call's outcome, `none` when the call panics (out-of-range
`drain` in `trim`). Getter calls return plain values in the source;
they are injected with `Except.ok`. -/
def stepR {T S : Type} (s : MemoryStorage T S) :
    StorageOp T S → Option (MemoryStorage T S × Except StorageErr (RetVal T S))
  | StorageOp.appendEntry e =>
      some (( MemoryStorage.append_entry s e).1,
        ( MemoryStorage.append_entry s e).2.map RetVal.natRet)
  | StorageOp.appendEntries es =>
      some (( MemoryStorage.append_entries s es).1,
        ( MemoryStorage.append_entries s es).2.map RetVal.natRet)
  | StorageOp.appendOnPref i es =>
      some (( MemoryStorage.append_on_prefix s i es).1,
        ( MemoryStorage.append_on_prefix s i es).2.map RetVal.natRet)
  | StorageOp.setPromise b =>
      some (( MemoryStorage.set_promise s b).1,
        ( MemoryStorage.set_promise s b).2.map fun _ => RetVal.unitRet)
  | StorageOp.setDecidedIdx n =>
      some (( MemoryStorage.set_decided_idx s n).1,
        ( MemoryStorage.set_decided_idx s n).2.map fun _ => RetVal.unitRet)
  | StorageOp.getDecidedIdx =>
      some (s, Except.ok (RetVal.natRet ( MemoryStorage.get_decided_idx s)))
  | StorageOp.setAcceptedRound b =>
      some (( MemoryStorage.set_accepted_round s b).1,
        ( MemoryStorage.set_accepted_round s b).2.map fun _ => RetVal.unitRet)
  | StorageOp.getAcceptedRound =>
      some (s, Except.ok (RetVal.ballotRet ( MemoryStorage.get_accepted_round s)))
  | StorageOp.getEntries f t =>
      some (s, Except.ok (RetVal.listRet ( MemoryStorage.get_entries s f t)))
  | StorageOp.getLogLen =>
      some (s, Except.ok (RetVal.natRet ( MemoryStorage.get_log_len s)))
  | StorageOp.getSuffix f =>
      some (s, Except.ok (RetVal.listRet ( MemoryStorage.get_suffix s f)))
  | StorageOp.getPromise =>
      some (s, Except.ok (RetVal.ballotRet ( MemoryStorage.get_promise s)))
  | StorageOp.setStopsign ss =>
      some (( MemoryStorage.set_stopsign s ss).1,
        ( MemoryStorage.set_stopsign s ss).2.map fun _ => RetVal.unitRet)
  | StorageOp.getStopsign =>
      some (s, Except.ok (RetVal.ssRet ( MemoryStorage.get_stopsign s)))
  | StorageOp.trim i =>
      ( MemoryStorage.trim s i).map fun pr =>
        (pr.1, pr.2.map fun _ => RetVal.unitRet)
  | StorageOp.setCompactedIdx i =>
      some (( MemoryStorage.set_compacted_idx s i).1,
        ( MemoryStorage.set_compacted_idx s i).2.map fun _ => RetVal.unitRet)
  | StorageOp.getCompactedIdx =>
      some (s, Except.ok (RetVal.natRet ( MemoryStorage.get_compacted_idx s)))
  | StorageOp.setSnapshot sn =>
      some (( MemoryStorage.set_snapshot s sn).1,
        ( MemoryStorage.set_snapshot s sn).2.map fun _ => RetVal.unitRet)
  | StorageOp.getSnapshot =>
      some (s, Except.ok (RetVal.snapRet ( MemoryStorage.get_snapshot s)))

/-- One step of the plain in-memory backend of memory.rs, same call set,
`none` for the same panic. -/
def stepP {T S : Type} (s : MemoryStorageP T S) :
    StorageOp T S → Option (MemoryStorageP T S × RetVal T S)
  | StorageOp.appendEntry e =>
      some (( MemoryStorageP.append_entry s e).1,
        RetVal.natRet ( MemoryStorageP.append_entry s e).2)
  | StorageOp.appendEntries es =>
      some (( MemoryStorageP.append_entries s es).1,
        RetVal.natRet ( MemoryStorageP.append_entries s es).2)
  | StorageOp.appendOnPref i es =>
      some (( MemoryStorageP.append_on_prefix s i es).1,
        RetVal.natRet ( MemoryStorageP.append_on_prefix s i es).2)
  | StorageOp.setPromise b =>
      some ( MemoryStorageP.set_promise s b, RetVal.unitRet)
  | StorageOp.setDecidedIdx n =>
      some ( MemoryStorageP.set_decided_idx s n, RetVal.unitRet)
  | StorageOp.getDecidedIdx =>
      some (s, RetVal.natRet ( MemoryStorageP.get_decided_idx s))
  | StorageOp.setAcceptedRound b =>
      some ( MemoryStorageP.set_accepted_round s b, RetVal.unitRet)
  | StorageOp.getAcceptedRound =>
      some (s, RetVal.ballotRet ( MemoryStorageP.get_accepted_round s))
  | StorageOp.getEntries f t =>
      some (s, RetVal.listRet ( MemoryStorageP.get_entries s f t))
  | StorageOp.getLogLen =>
      some (s, RetVal.natRet ( MemoryStorageP.get_log_len s))
  | StorageOp.getSuffix f =>
      some (s, RetVal.listRet ( MemoryStorageP.get_suffix s f))
  | StorageOp.getPromise =>
      some (s, RetVal.ballotRet ( MemoryStorageP.get_promise s))
  | StorageOp.setStopsign ss =>
      some ( MemoryStorageP.set_stopsign s ss, RetVal.unitRet)
  | StorageOp.getStopsign =>
      some (s, RetVal.ssRet ( MemoryStorageP.get_stopsign s))
  | StorageOp.trim i =>
      ( MemoryStorageP.trim s i).map fun s1 => (s1, RetVal.unitRet)
  | StorageOp.setCompactedIdx i =>
      some ( MemoryStorageP.set_compacted_idx s i, RetVal.unitRet)
  | StorageOp.getCompactedIdx =>
      some (s, RetVal.natRet ( MemoryStorageP.get_compacted_idx s))
  | StorageOp.setSnapshot sn =>
      some ( MemoryStorageP.set_snapshot s sn, RetVal.unitRet)
  | StorageOp.getSnapshot =>
      some (s, RetVal.snapRet ( MemoryStorageP.get_snapshot s))

/-- Run a sequence of storage calls on the `Result`-returning backend:
final state and the outcome of every call, `none` as soon as a call
panics. -/
def runR {T S : Type} (s : MemoryStorage T S) :
    List (StorageOp T S) →
      Option (MemoryStorage T S × List (Except StorageErr (RetVal T S)))
  | [] => some (s, [])
  | op :: ops =>
    match stepR s op with
    | none => none
    | some (s1, r) =>
      match runR s1 ops with
      | none => none
      | some (s2, rs) => some (s2, r :: rs)

/-- Run a sequence of storage calls on the plain backend. -/
def runP {T S : Type} (s : MemoryStorageP T S) :
    List (StorageOp T S) → Option (MemoryStorageP T S × List (RetVal T S))
  | [] => some (s, [])
  | op :: ops =>
    match stepP s op with
    | none => none
    | some (s1, r) =>
      match runP s1 ops with
      | none => none
      | some (s2, rs) => some (s2, r :: rs)

/-- The field-for-field correspondence between the two in-memory
backends (the structures are identical). -/
def toR {T S : Type} (p : MemoryStorageP T S) : MemoryStorage T S :=
  ⟨p.log, p.n_prom, p.acc_round, p.ld, p.trimmed_idx, p.snapshot, p.stopsign⟩

/-! Theorems. -/

/-- C1. For every storage field in {promise, accepted round, decided
index, compacted index}, `set_X(v); get_X() = v` holds in both in-memory
backends, and on the disk backend for promise, decided index and
compacted index; but on the disk backend `set_accepted_round` writes key
`n_prom`, so after `set_accepted_round ⟨1, 0, 1⟩` on a fresh replica,
`get_accepted_round` still returns `Ballot.default ≠ ⟨1, 0, 1⟩`: the
claimed round-trip law fails there. -/
theorem set_get_roundtrips_and_disk_acc_round_bug :
    (∀ (T S : Type) (s : MemoryStorage T S) (b : Ballot),
      MemoryStorage.get_promise ( MemoryStorage.set_promise s b).1 = b) ∧
    (∀ (T S : Type) (s : MemoryStorage T S) (b : Ballot),
      MemoryStorage.get_accepted_round ( MemoryStorage.set_accepted_round s b).1 = b) ∧
    (∀ (T S : Type) (s : MemoryStorage T S) (k : Nat),
      MemoryStorage.get_decided_idx ( MemoryStorage.set_decided_idx s k).1 = k) ∧
    (∀ (T S : Type) (s : MemoryStorage T S) (k : Nat),
      MemoryStorage.get_compacted_idx ( MemoryStorage.set_compacted_idx s k).1 = k) ∧
    (∀ (T S : Type) (p : MemoryStorageP T S) (b : Ballot),
      MemoryStorageP.get_promise ( MemoryStorageP.set_promise p b) = b) ∧
    (∀ (T S : Type) (p : MemoryStorageP T S) (b : Ballot),
      MemoryStorageP.get_accepted_round ( MemoryStorageP.set_accepted_round p b) = b) ∧
    (∀ (T S : Type) (p : MemoryStorageP T S) (k : Nat),
      MemoryStorageP.get_decided_idx ( MemoryStorageP.set_decided_idx p k) = k) ∧
    (∀ (T S : Type) (p : MemoryStorageP T S) (k : Nat),
      MemoryStorageP.get_compacted_idx ( MemoryStorageP.set_compacted_idx p k) = k) ∧
    (∀ (T S : Type) (d : PersistentState T S) (b : Ballot),
      PersistentState.get_promise ( PersistentState.set_promise d b) = some b) ∧
    (∀ (T S : Type) (d : PersistentState T S) (k : Nat),
      PersistentState.get_decided_idx ( PersistentState.set_decided_idx d k) = some k) ∧
    (∀ (T S : Type) (d : PersistentState T S) (k : Nat),
      PersistentState.get_compacted_idx ( PersistentState.set_compacted_idx d k) = k) ∧
    PersistentState.get_accepted_round
        ( PersistentState.set_accepted_round ( PersistentState.init Nat Unit "1") ⟨1, 0, 1⟩) =
      some Ballot.default ∧
    Ballot.default ≠ (⟨1, 0, 1⟩ : Ballot) := by
  refine ⟨fun _ _ _ _ => rfl, fun _ _ _ _ => rfl, fun _ _ _ _ => rfl,
    fun _ _ _ _ => rfl, fun _ _ _ _ => rfl, fun _ _ _ _ => rfl,
    fun _ _ _ _ => rfl, fun _ _ _ _ => rfl, ?_, ?_, fun _ _ _ _ => rfl, ?_, ?_⟩
  · intro T S d b
    simp [PersistentState.get_promise, PersistentState.set_promise, List.lookup]
  · intro T S d k
    simp [PersistentState.get_decided_idx, PersistentState.set_decided_idx, List.lookup]
  · rfl
  · decide

/-- C2. In both in-memory backends `set_accepted_round` leaves
`get_promise` unchanged (the rounds are stored in distinct fields); on
the disk backend it writes key `n_prom`, the promise key, so on a fresh
replica `set_accepted_round ⟨1, 0, 1⟩` changes `get_promise` from
`Ballot.default` to `⟨1, 0, 1⟩`: the claimed frame property fails
there. -/
theorem acc_round_promise_frame_and_disk_key_collision :
    (∀ (T S : Type) (s : MemoryStorage T S) (b : Ballot),
      MemoryStorage.get_promise ( MemoryStorage.set_accepted_round s b).1 =
        MemoryStorage.get_promise s) ∧
    (∀ (T S : Type) (p : MemoryStorageP T S) (b : Ballot),
      MemoryStorageP.get_promise ( MemoryStorageP.set_accepted_round p b) =
        MemoryStorageP.get_promise p) ∧
    PersistentState.get_promise ( PersistentState.init Nat Unit "1") =
      some Ballot.default ∧
    PersistentState.get_promise
        ( PersistentState.set_accepted_round ( PersistentState.init Nat Unit "1") ⟨1, 0, 1⟩) =
      some ⟨1, 0, 1⟩ ∧
    (⟨1, 0, 1⟩ : Ballot) ≠ Ballot.default := by
  refine ⟨fun _ _ _ _ => rfl, fun _ _ _ _ => rfl, rfl, ?_, ?_⟩
  · simp [PersistentState.get_promise, PersistentState.set_accepted_round,
      PersistentState.init, List.lookup]
  · decide

/-- A concrete storage state used to instantiate the append-on-prefix
round-trip law. -/
def exampleMem : MemoryStorage Nat Unit :=
  ⟨[10, 20, 30], Ballot.default, Ballot.default, 0, 0, none, none⟩

/-- C3. After `append_on_prefix k E` at an index `k` within the log,
`get_suffix k` returns exactly the appended entries and
`get_entries 0 k` returns the same prefix as before the call. -/
theorem append_on_pref_roundtrip (T S : Type) (s : MemoryStorage T S)
    (k : Nat) (E : List T) (hk : k ≤ MemoryStorage.get_log_len s) :
    MemoryStorage.get_suffix ( MemoryStorage.append_on_prefix s k E).1 k = E ∧
    MemoryStorage.get_entries ( MemoryStorage.append_on_prefix s k E).1 0 k =
      MemoryStorage.get_entries s 0 k := by
  have hl : (s.log.take k).length = k := by
    simpa using Nat.min_eq_left hk
  have hdrop : (s.log.take k ++ E).drop k = E := by
    have h := List.drop_left (s.log.take k) E
    rw [hl] at h
    exact h
  have htake : (s.log.take k ++ E).take k = s.log.take k := by
    have h := List.take_left (s.log.take k) E
    rw [hl] at h
    exact h
  have hcond : k ≤ (s.log.take k ++ E).length := by
    rw [List.length_append, hl]
    omega
  constructor
  · show (match sliceFrom (s.log.take k ++ E) k with
      | some l => l
      | none => []) = E
    unfold sliceFrom
    rw [if_pos hcond]
    exact hdrop
  · show (sliceRange (s.log.take k ++ E) 0 k).getD [] =
      (sliceRange s.log 0 k).getD []
    unfold sliceRange
    rw [if_pos ⟨Nat.zero_le k, hcond⟩, if_pos ⟨Nat.zero_le k, hk⟩]
    exact htake

/-- Witness for C3: the law at the concrete log `[10, 20, 30]`, index 2
and suffix `[7, 8]`. -/
theorem append_on_pref_roundtrip_witness :
    2 ≤ MemoryStorage.get_log_len exampleMem ∧
    ( MemoryStorage.get_suffix
        ( MemoryStorage.append_on_prefix exampleMem 2 [7, 8]).1 2 = [7, 8] ∧
      MemoryStorage.get_entries
          ( MemoryStorage.append_on_prefix exampleMem 2 [7, 8]).1 0 2 =
        MemoryStorage.get_entries exampleMem 0 2) :=
  ⟨by decide, append_on_pref_roundtrip Nat Unit exampleMem 2 [7, 8] (by decide)⟩

/-- C4. In both in-memory backends `get_entries` and `get_suffix` are
total functions into plain entry lists (the embedded types carry no
error case, mirroring `slice::get(..).unwrap_or(&[])`, which cannot
panic): an empty interval or one not entirely inside the stored log
yields the empty list. -/
theorem get_entries_get_suffix_total (T S : Type)
    (s : MemoryStorage T S) (p : MemoryStorageP T S) (f t : Nat) :
    (f = t → MemoryStorage.get_entries s f t = []) ∧
    (¬ (f ≤ t ∧ t ≤ MemoryStorage.get_log_len s) →
      MemoryStorage.get_entries s f t = []) ∧
    ( MemoryStorage.get_log_len s ≤ f → MemoryStorage.get_suffix s f = []) ∧
    (f = t → MemoryStorageP.get_entries p f t = []) ∧
    (¬ (f ≤ t ∧ t ≤ MemoryStorageP.get_log_len p) →
      MemoryStorageP.get_entries p f t = []) ∧
    ( MemoryStorageP.get_log_len p ≤ f → MemoryStorageP.get_suffix p f = []) := by
  have hrange : ∀ (l : List T) (a b : Nat), a = b → (sliceRange l a b).getD [] = [] := by
    intro l a b hab
    subst hab
    unfold sliceRange
    split
    · simpa using List.drop_eq_nil_of_le (le_of_eq_of_le (List.length_take a l) (Nat.min_le_left a l.length))
    · rfl
  have hoob : ∀ (l : List T) (a b : Nat), ¬ (a ≤ b ∧ b ≤ l.length) →
      (sliceRange l a b).getD [] = [] := by
    intro l a b hab
    unfold sliceRange
    rw [if_neg hab]
    rfl
  have hsuf : ∀ (l : List T) (a : Nat), l.length ≤ a →
      (match sliceFrom l a with | some x => x | none => []) = [] := by
    intro l a ha
    unfold sliceFrom
    by_cases h : a ≤ l.length
    · rw [if_pos h]
      exact List.drop_eq_nil_of_le ha
    · rw [if_neg h]
  exact ⟨hrange s.log f t, hoob s.log f t, hsuf s.log f,
    hrange p.log f t, hoob p.log f t, hsuf p.log f⟩

/-- A concrete storage state holding a decided stop-sign, with a
two-entry log. -/
def stoppedMem : MemoryStorage Nat Unit :=
  ⟨[1, 2], Ballot.default, Ballot.default, 2, 0, none,
    some ⟨⟨2, [2, 3, 4], none⟩, true⟩⟩

/-- Counterexample to C5: on a state whose stop-sign is present and
decided, `append_entry` and `append_entries` still succeed (return
`Ok` of the new length), so the storage layer does admit further
entries. -/
theorem append_after_decided_stopsign_succeeds_cex :
    (∃ ss, MemoryStorage.get_stopsign stoppedMem = some ss ∧ ss.decided = true) ∧
    ( MemoryStorage.append_entry stoppedMem 7).2 = Except.ok 3 ∧
    ( MemoryStorage.append_entries stoppedMem [7, 8]).2 = Except.ok 4 :=
  ⟨⟨⟨⟨2, [2, 3, 4], none⟩, true⟩, rfl, rfl⟩, rfl, rfl⟩

/-- C5 as amended: the storage backends themselves do not enforce
stop-sign terminality: with a decided stop-sign present, `append_entry`
and `append_entries` still succeed with `Ok` of the grown length and
leave the stop-sign in place. (Terminality is the duty of the Sequence
Paxos layer above storage, which rejects client appends with `Stopped`.) -/
theorem storage_append_ignores_stopsign (T S : Type) (s : MemoryStorage T S)
    (e : T) (es : List T) (ss : StopSignEntry)
    (h : MemoryStorage.get_stopsign s = some ss) (hd : ss.decided = true) :
    ( MemoryStorage.append_entry s e).2 =
      Except.ok ( MemoryStorage.get_log_len s + 1) ∧
    MemoryStorage.get_stopsign ( MemoryStorage.append_entry s e).1 = some ss ∧
    ( MemoryStorage.append_entries s es).2 =
      Except.ok ( MemoryStorage.get_log_len s + es.length) ∧
    MemoryStorage.get_stopsign ( MemoryStorage.append_entries s es).1 = some ss := by
  refine ⟨?_, ?_, ?_, ?_⟩
  · simp [ MemoryStorage.append_entry, MemoryStorage.get_log_len]
  · exact h
  · simp [ MemoryStorage.append_entries, MemoryStorage.get_log_len]
  · exact h

/-- Witness for the amended C5, at the concrete decided-stop-sign
state. -/
theorem storage_append_ignores_stopsign_witness :
    ( MemoryStorage.append_entry stoppedMem 9).2 =
      Except.ok ( MemoryStorage.get_log_len stoppedMem + 1) ∧
    MemoryStorage.get_stopsign ( MemoryStorage.append_entry stoppedMem 9).1 =
      some ⟨⟨2, [2, 3, 4], none⟩, true⟩ ∧
    ( MemoryStorage.append_entries stoppedMem [4, 5]).2 =
      Except.ok ( MemoryStorage.get_log_len stoppedMem + 2) ∧
    MemoryStorage.get_stopsign ( MemoryStorage.append_entries stoppedMem [4, 5]).1 =
      some ⟨⟨2, [2, 3, 4], none⟩, true⟩ :=
  storage_append_ignores_stopsign Nat Unit stoppedMem 9 [4, 5]
    ⟨⟨2, [2, 3, 4], none⟩, true⟩ rfl rfl

/-- C6. `trim 0` is a no-op in both in-memory backends: it succeeds (the
drained range `0..0` is always in bounds), and the resulting state has
the same `get_log_len`, the same `get_entries` on every interval and the
same `get_suffix` at every index as before the call. -/
theorem trim_zero_noop (T S : Type) (s : MemoryStorage T S)
    (p : MemoryStorageP T S) :
    (∃ s1, MemoryStorage.trim s 0 = some (s1, Except.ok ()) ∧
      MemoryStorage.get_log_len s1 = MemoryStorage.get_log_len s ∧
      (∀ f t, MemoryStorage.get_entries s1 f t = MemoryStorage.get_entries s f t) ∧
      (∀ f, MemoryStorage.get_suffix s1 f = MemoryStorage.get_suffix s f)) ∧
    (∃ p1, MemoryStorageP.trim p 0 = some p1 ∧
      MemoryStorageP.get_log_len p1 = MemoryStorageP.get_log_len p ∧
      (∀ f t, MemoryStorageP.get_entries p1 f t = MemoryStorageP.get_entries p f t) ∧
      (∀ f, MemoryStorageP.get_suffix p1 f = MemoryStorageP.get_suffix p f)) := by
  refine ⟨⟨s, ?_, rfl, fun _ _ => rfl, fun _ => rfl⟩,
    ⟨p, ?_, rfl, fun _ _ => rfl, fun _ => rfl⟩⟩
  · unfold MemoryStorage.trim
    rw [if_pos (Nat.zero_le _)]
    rfl
  · unfold MemoryStorageP.trim
    rw [if_pos (Nat.zero_le _)]
    rfl

/-- C7. `NodeConfig::validate` returns a configuration error exactly
when the pid is 0, or the peer list is empty, or the peer list contains
the node's own pid; every other configuration validates to `Ok`. -/
theorem validate_config_error_iff (c : NodeConfig) :
    ((∃ e, NodeConfig.validate c = Except.error e) ↔
      (c.pid = 0 ∨ c.peers = [] ∨ c.pid ∈ c.peers)) ∧
    (NodeConfig.validate c = Except.ok () ↔
      ¬ (c.pid = 0 ∨ c.peers = [] ∨ c.pid ∈ c.peers)) := by
  by_cases h0 : c.pid = 0
  · constructor
    · simp [NodeConfig.validate, h0]
    · simp [NodeConfig.validate, h0]
  · by_cases h1 : c.peers = [] ∨ c.pid ∈ c.peers
    · have hb : (c.peers.isEmpty || c.peers.contains c.pid) = true := by
        rcases h1 with h1 | h1
        · simp [h1]
        · simp [h1]
      constructor
      · simp [NodeConfig.validate, h0, hb, h1]
      · simp [NodeConfig.validate, h0, hb, h1]
    · have hb : (c.peers.isEmpty || c.peers.contains c.pid) = false := by
        push_neg at h1
        simp [List.isEmpty_iff, h1.1, h1.2]
      constructor
      · simp [NodeConfig.validate, h0, hb, h1]
      · simp [NodeConfig.validate, h0, hb, h1]

/-- C8. Stop-sign equality ignores metadata: the Rust `PartialEq`
instance holds exactly when `config_id` and `nodes` agree, and replacing
the metadata of either side does not change the comparison. -/
theorem stopsign_eq_ignores_metadata (a b : StopSign) :
    ( StopSign.eq a b = true ↔
      (a.config_id = b.config_id ∧ a.nodes = b.nodes)) ∧
    (∀ m1 m2 : Option (List Nat),
      StopSign.eq ⟨a.config_id, a.nodes, m1⟩ ⟨b.config_id, b.nodes, m2⟩ =
        StopSign.eq a b) := by
  constructor
  · simp [ StopSign.eq]
  · intro m1 m2
    rfl

/-- Single-step simulation between the two in-memory backends: on
corresponding states the `Result`-returning backend takes the same step
as the plain one (panicking exactly when it does), returns `Ok` of the
plain backend's value, and reaches the corresponding state. -/
theorem stepR_simulates_stepP {T S : Type} (p : MemoryStorageP T S)
    (op : StorageOp T S) :
    stepR (toR p) op = (stepP p op).map fun pr => (toR pr.1, Except.ok pr.2) := by
  cases op
  case trim i =>
    simp only [stepR, stepP, MemoryStorage.trim, MemoryStorageP.trim, toR]
    by_cases h : i ≤ p.log.length
    · simp [h, Except.map]
    · simp [h]
  all_goals rfl

/-- C10. The two in-memory storage implementations are observationally
equivalent: running any sequence of storage calls from the two default
states, the `Result`-returning backend panics exactly when the plain one
does, and otherwise ends in the corresponding state having returned `Ok`
of exactly the plain backend's value at every call. -/
theorem memory_storages_observationally_equal (T S : Type)
    (ops : List (StorageOp T S)) :
    runR MemoryStorage.init ops =
      (runP MemoryStorageP.init ops).map fun pr => (toR pr.1, pr.2.map Except.ok) := by
  have key : ∀ (ops : List (StorageOp T S)) (p : MemoryStorageP T S),
      runR (toR p) ops =
        (runP p ops).map fun pr => (toR pr.1, pr.2.map Except.ok) := by
    intro ops
    induction ops with
    | nil => intro p; rfl
    | cons op ops ih =>
      intro p
      have hs := stepR_simulates_stepP p op
      cases hp : stepP p op with
      | none =>
        rw [hp] at hs
        simp only [runR, runP, hs, hp, Option.map_none']
      | some pr =>
        obtain ⟨p1, r⟩ := pr
        rw [hp] at hs
        simp only [runR, runP, hs, hp, Option.map_some']
        rw [ih p1]
        cases hq : runP p1 ops with
        | none => rfl
        | some qr => rfl
  exact key ops MemoryStorageP.init

/-- C9. The unit-type snapshot capability is a valid sentinel:
`use_snapshots` is `false`, and `create` and `merge` diverge
(`unimplemented!()`, embedded as `none`) on every input, so neither can
produce a snapshot value. -/
theorem unit_snapshot_sentinel :
    UnitSnapshot.use_snapshots = false ∧
    (∀ (T : Type) (entries : List T), UnitSnapshot.create T entries = none) ∧
    (∀ u d : Unit, UnitSnapshot.merge u d = none) :=
  ⟨rfl, fun _ _ => rfl, fun _ _ => rfl⟩

end OmniPaxos
